import Mathlib

/-!
Shallow embedding of the Kakona postal-code plotting application
(source file: src/main.ts).

The program resolves 4-digit Dutch postal codes to GeoJSON features by
querying the PDOK location service (primary) and Nominatim (fallback),
draws an approximate circular polygon around the PDOK centroid, plots
batches of codes sequentially with a 500 ms pacing delay, and offers a
search interaction that classifies a code against a configured list.

Modelling conventions:
  * Network interaction is modelled by oracles: each service call is a
    value describing the response the service would give.  A thrown
    network or JSON-parse error is modelled as the value `none` for the
    whole response; a successful HTTP+JSON exchange is `some data`.
  * JavaScript numbers obtained from `Number(string)` are modelled by
    `JSNum`: NaN, the two infinities, and finite values as rationals.
  * Real-valued geometry (the circle approximation built with
    `Math.cos`/`Math.sin`) is modelled over `ℝ` with `Real.cos`/`Real.sin`.
  * DOM side effects (status text, popups, layer groups) are modelled as
    explicit fields of result records; the sequential batch loop also
    records an event trace containing the resolution attempts and the
    `setTimeout` pacing delays.
-/

/-- A JavaScript number as produced by the global `Number` conversion:
either NaN, one of the two infinities, or a finite value (modelled
exactly as a rational). -/
inductive JSNum where
  | nan : JSNum
  | posInfty : JSNum
  | negInfty : JSNum
  | fin (q : ℚ) : JSNum
deriving DecidableEq

/-- Model of the JavaScript global `isNaN` applied to a number value. -/
def JSNum.isNaN : JSNum → Bool
  | .nan => true
  | _ => false

/-- True exactly for finite JavaScript numbers. -/
def JSNum.isFinite : JSNum → Bool
  | .fin _ => true
  | _ => false

/-- Reading a JavaScript number as a real.  Finite values embed exactly;
the non-finite values are collapsed to `0`.  In the program the
non-finite case can only reach real arithmetic when a parsed coordinate
is `±Infinity` (it passed the `!isNaN` guard); JavaScript would then
propagate the infinity through the polygon arithmetic.  No claim
inspects the numeric ring in that situation, only which branch was
taken, so the collapse is unobservable in this development. -/
def JSNum.toReal : JSNum → ℝ
  | .fin q => (q : ℝ)
  | _ => 0

/-- Decimal digit test, the `[0-9]` character class. -/
def isDigitChar (c : Char) : Bool := '0' ≤ c ∧ c ≤ '9'

/-- ASCII letter test, the `[A-Za-z]` character class used by
`trimZipcode`. -/
def isLetterChar (c : Char) : Bool :=
  ('A' ≤ c ∧ c ≤ 'Z') ∨ ('a' ≤ c ∧ c ≤ 'z')

/-- JavaScript whitespace as far as this program can meet it (space,
tab, line feed, carriage return, vertical tab, form feed).  The full
ECMAScript `trim` also strips exotic Unicode space characters; those
never occur in the strings this program manipulates. -/
def isJsSpace (c : Char) : Bool :=
  c = ' ' ∨ c = '\t' ∨ c = '\n' ∨ c = '\r' ∨ c = '\x0b' ∨ c = '\x0c'

/-- Numeric value of a decimal digit character. -/
def digitVal (c : Char) : ℕ := c.toNat - 48

/-- Value of a list of decimal digit characters read in base 10. -/
def natOfDigits (xs : List Char) : ℕ :=
  xs.foldl (fun a c => 10 * a + digitVal c) 0

/-- Model of `String.prototype.trim` on a character list. -/
def jsTrim (xs : List Char) : List Char :=
  ((xs.dropWhile isJsSpace).reverse.dropWhile isJsSpace).reverse

/-- Model of `String.prototype.trim` on strings. -/
def jsTrimStr (s : String) : String := ⟨jsTrim s.toList⟩

/-- Exponent suffix of a decimal literal: after `e`/`E`, an optional
sign and at least one digit, consuming the rest of the string. -/
def parseExpTail (xs : List Char) : Option ℤ :=
  let signAndDigits :=
    match xs with
    | '+' :: r => some (1, r)
    | '-' :: r => some (-1, r)
    | r => some (1, r)
  match signAndDigits with
  | some (sgn, ds) =>
      if ds.isEmpty then none
      else if ds.all isDigitChar then some (sgn * (natOfDigits ds : ℤ))
      else none
  | none => none

/-- After the mantissa of a decimal literal: either nothing is left, or
an exponent part follows. -/
def parseAfterMantissa (mant : ℚ) : List Char → Option ℚ
  | [] => some mant
  | 'e' :: r => (parseExpTail r).map (fun e => mant * (10 : ℚ) ^ e)
  | 'E' :: r => (parseExpTail r).map (fun e => mant * (10 : ℚ) ^ e)
  | _ => none

/-- Unsigned decimal literal: `digits`, `digits.digits`, `digits.`,
or `.digits`, each with an optional exponent. -/
def parseUnsignedDec (xs : List Char) : Option ℚ :=
  let ip := xs.takeWhile isDigitChar
  let r1 := xs.dropWhile isDigitChar
  match r1 with
  | '.' :: r2 =>
      let fp := r2.takeWhile isDigitChar
      let r3 := r2.dropWhile isDigitChar
      if ip.isEmpty ∧ fp.isEmpty then none
      else
        parseAfterMantissa
          ((natOfDigits ip : ℚ) + (natOfDigits fp : ℚ) / (10 : ℚ) ^ fp.length) r3
  | _ => if ip.isEmpty then none else parseAfterMantissa (natOfDigits ip : ℚ) r1

/-- Signed decimal literal. -/
def parseSignedDec (xs : List Char) : Option ℚ :=
  match xs with
  | '+' :: r => parseUnsignedDec r
  | '-' :: r => (parseUnsignedDec r).map Neg.neg
  | r => parseUnsignedDec r

/-- Model of the JavaScript `Number(string)` conversion on the grammar
fragment this program can encounter: surrounding whitespace is trimmed,
the empty string converts to `0`, the `Infinity` spellings convert to
the infinities, decimal literals (with optional sign, fraction and
exponent) convert exactly, and anything else converts to NaN.  The
radix-prefixed literal forms (`0x…`, `0o…`, `0b…`), which convert in
JavaScript but cannot appear in a coordinate, are not modelled. -/
def jsNumberOfChars (xs : List Char) : JSNum :=
  let t := jsTrim xs
  if t.isEmpty then .fin 0
  else if t = "Infinity".toList ∨ t = "+Infinity".toList then .posInfty
  else if t = "-Infinity".toList then .negInfty
  else
    match parseSignedDec t with
    | some q => .fin q
    | none => .nan

/-- The `Number` conversion on strings. -/
def jsNumber (s : String) : JSNum := jsNumberOfChars s.toList

/-- Attempt of the regular expression `POINT\(([^)]+)\)` at the current
position: the literal `POINT(`, then a maximal non-empty run of
non-`)` characters (the capture), then `)`. -/
def pointCaptureHere : List Char → Option (List Char)
  | 'P' :: 'O' :: 'I' :: 'N' :: 'T' :: '(' :: rest =>
      let run := rest.takeWhile (fun c => c ≠ ')')
      let rem := rest.dropWhile (fun c => c ≠ ')')
      if run.isEmpty then none
      else
        match rem with
        | ')' :: _ => some run
        | _ => none
  | _ => none

/-- Model of `s.match(/POINT\(([^\)]+)\)/)`, returning capture group 1
of the leftmost match: the attempt is made at each position in turn,
as the regular-expression engine does. -/
def pointCapture : List Char → Option (List Char)
  | [] => none
  | c :: tail =>
      match pointCaptureHere (c :: tail) with
      | some r => some r
      | none => pointCapture tail

/-- Model of `String.prototype.split(' ')`: cut at every single space
character, keeping empty segments. -/
def splitOnSpace : List Char → List (List Char)
  | [] => [[]]
  | c :: rest =>
      if c = ' ' then [] :: splitOnSpace rest
      else
        match splitOnSpace rest with
        | t :: ts => (c :: t) :: ts
        | [] => [[c]]

/-- Element `i` of `captured.split(' ').map(Number)`, as read by the
destructuring `const [lon, lat] = …`: a missing element is `undefined`,
which `isNaN` coerces to NaN. -/
def tokNum (cap : List Char) (i : ℕ) : JSNum :=
  match (splitOnSpace cap).get? i with
  | some t => jsNumberOfChars t
  | none => .nan

noncomputable section

/-- Conversion of the centre latitude to radians, `lat * Math.PI / 180`,
the divisor's argument in the longitude-offset computation of
`createApproximatePolygon`. -/
def latRad (lat : ℝ) : ℝ := lat * Real.pi / 180

/-- The loop angle of `createApproximatePolygon`:
`(i / points) * 2 * Math.PI` with `points = 20`. -/
def approxAngle (i : ℕ) : ℝ := (i : ℝ) / 20 * 2 * Real.pi

/-- Vertex `i` of the approximate polygon, in the `[lat, lon]` order in
which the source pushes it:
`[lat + radius*cos(angle), lon + radius*sin(angle)/cos(lat*π/180)]`
with `radius = 0.02`. -/
def approxVertex (lat lon : ℝ) (i : ℕ) : ℝ × ℝ :=
  (lat + 0.02 * Real.cos (approxAngle i),
   lon + 0.02 * Real.sin (approxAngle i) / Real.cos (latRad lat))

/-- The `coordinates` array built by `createApproximatePolygon`: the 20
loop vertices followed by a copy of vertex 0 closing the ring, in
`[lat, lon]` order. -/
def approxRing (lat lon : ℝ) : List (ℝ × ℝ) :=
  ((List.range 20).map (approxVertex lat lon)) ++ [approxVertex lat lon 0]

/-- Geometry of a resolved feature: either the ring of the approximate
polygon (stored in the GeoJSON `(lon, lat)` order, as the source remaps
it), or the opaque GeoJSON geometry object returned verbatim by
Nominatim, modelled as an abstract handle. -/
inductive Geom where
  | polygon (ring : List (ℝ × ℝ)) : Geom
  | external (g : ℕ) : Geom

/-- A GeoJSON feature as this program builds them: a `postcode`
property and a geometry. -/
structure Feature where
  postcode : String
  geometry : Geom

/-- Model of `createApproximatePolygon(lat, lon, zipcode)`: the feature
whose ring is the closed 21-vertex circle approximation, re-expressed
in `(lon, lat)` order by the final `coordinates.map(c => [c[1], c[0]])`. -/
def createApproximatePolygon (lat lon : ℝ) (zipcode : String) : Feature :=
  { postcode := zipcode
    geometry := .polygon ((approxRing lat lon).map Prod.swap) }

/-- One document of the PDOK response; `centroide_ll` is the optional
centroid text field. -/
structure PdokDoc where
  centroide_ll : Option String

/-- The `response` object of the PDOK JSON body.  A missing `docs`
array and an empty one are indistinguishable to the program (both fail
`docs?.length > 0`), so `docs` is modelled as a plain list. -/
structure PdokInner where
  docs : List PdokDoc

/-- The PDOK JSON body; the `response` field is optional. -/
structure PdokData where
  response : Option PdokInner

/-- One element of the Nominatim response array; `geojson` is the
optional geometry, modelled as an opaque handle. -/
structure NomDoc where
  geojson : Option ℕ

/-- Model of `fetchFromNominatim(zipcode)`.  The oracle argument is the
response: `none` models a thrown network or JSON-parse error (caught by
the method's own try/catch, which returns `null`), `some docs` models
the parsed JSON array.  If the first element carries a geometry, it is
wrapped into a feature with the input code as the `postcode` property;
otherwise the result is `null`. -/
def fetchFromNominatim (zipcode : String) (resp : Option (List NomDoc)) :
    Option Feature :=
  match resp with
  | none => none
  | some docs =>
      match docs with
      | d :: _ =>
          match d.geojson with
          | some g => some { postcode := zipcode, geometry := .external g }
          | none => none
      | [] => none

/-- Model of `fetchZipcodeGeometry(zipcode)`.  `pdokResp` is the primary
(PDOK) exchange: `none` models a throw from `fetch` or
`response.json()`; because the whole body of the method — including the
fallback call — sits in one try/catch, such a throw makes the method
return `null` directly, without consulting Nominatim.  On a successful
primary exchange, a first document with a centroid matching
`POINT\(([^\)]+)\)` whose first two space-separated tokens both convert
to non-NaN numbers delegates to `createApproximatePolygon` (with the
tokens read as longitude then latitude); every miss falls through to
`fetchFromNominatim`. -/
def fetchZipcodeGeometry (zipcode : String) (pdokResp : Option PdokData)
    (nomResp : Option (List NomDoc)) : Option Feature :=
  match pdokResp with
  | none => none
  | some data =>
      match data.response with
      | some inner =>
          match inner.docs with
          | doc :: _ =>
              match doc.centroide_ll with
              | some s =>
                  match pointCapture s.toList with
                  | some cap =>
                      let lon := tokNum cap 0
                      let lat := tokNum cap 1
                      if lat.isNaN = false ∧ lon.isNaN = false then
                        some (createApproximatePolygon lat.toReal lon.toReal zipcode)
                      else fetchFromNominatim zipcode nomResp
                  | none => fetchFromNominatim zipcode nomResp
              | none => fetchFromNominatim zipcode nomResp
          | [] => fetchFromNominatim zipcode nomResp
      | none => fetchFromNominatim zipcode nomResp

/-- Model of `trimZipcode(input)`: remove every ASCII letter,
`input.replace(/[A-Za-z]/g, '')`. -/
def trimZipcode (s : String) : String :=
  ⟨s.toList.filter (fun c => isLetterChar c = false)⟩

/-- A styled layer added to the search overlay group by
`plotZipcodeWithStyle`: the resolved feature, the style fields passed
to `L.geoJSON`, and the popup text bound to the feature. -/
structure StyledLayer where
  feature : Feature
  fillColor : String
  fillOpacity : ℚ
  strokeColor : String
  weight : ℕ
  popup : String

/-- The final text placed in the search-result element by
`searchZipcode`. -/
inductive SearchMsg where
  | invalidInput : SearchMsg
  | polluted : SearchMsg
  | safe : SearchMsg
deriving DecidableEq

/-- Observable outcome of one `searchZipcode` call: the final result
message, the layers added to the (previously cleared) search overlay
group, and the codes for which a network resolution was started, in
order. -/
structure SearchOutcome where
  msg : SearchMsg
  searchLayers : List StyledLayer
  networkCalls : List String

/-- Model of `plotZipcodeWithStyle(zipcode, color, isPolluted)`: the
layers it adds to the search overlay group.  The code resolves the
zipcode; on a `null` result it adds nothing, otherwise it adds one
layer styled with the given color (fill opacity 0.7, stroke weight 3)
and a popup carrying the postcode and the pollution message. -/
def plotZipcodeWithStyle (zipcode : String) (color : String)
    (isPolluted : Bool) (pdokResp : Option PdokData)
    (nomResp : Option (List NomDoc)) : List StyledLayer :=
  match fetchZipcodeGeometry zipcode pdokResp nomResp with
  | none => []
  | some f =>
      [{ feature := f
         fillColor := color
         fillOpacity := 7 / 10
         strokeColor := color
         weight := 3
         popup := "Postcode: " ++ zipcode ++ "<br/><strong>" ++
           (if isPolluted then "POLLUTED WATER!" else "Safe to drink") ++
           "</strong>" }]

/-- Model of `searchZipcode(input)`.  The search overlay is cleared
first, so `searchLayers` is exactly what this call adds.  The input is
whitespace-trimmed, letters are stripped; an empty or non-4-character
result reports invalid input and performs no network call.  Otherwise
the code is classified against the configured list and plotted red
(polluted) or green (safe); afterwards the code is resolved a second
time to zoom to it, so a valid search starts two resolutions.  The
oracles `pdok` and `nom` give each code its service responses (the two
resolutions of one call see the same responses). -/
def searchZipcode (input : String) (cfgZipcodes : List String)
    (pdok : String → Option PdokData) (nom : String → Option (List NomDoc)) :
    SearchOutcome :=
  let zipcode := trimZipcode (jsTrimStr input)
  if zipcode = "" ∨ zipcode.length ≠ 4 then
    { msg := .invalidInput, searchLayers := [], networkCalls := [] }
  else if cfgZipcodes.contains zipcode then
    { msg := .polluted
      searchLayers :=
        plotZipcodeWithStyle zipcode "#e74c3c" true (pdok zipcode) (nom zipcode)
      networkCalls := [zipcode, zipcode] }
  else
    { msg := .safe
      searchLayers :=
        plotZipcodeWithStyle zipcode "#27ae60" false (pdok zipcode) (nom zipcode)
      networkCalls := [zipcode, zipcode] }

/-- Events observable during one `plotAllZipcodes` run: a resolution
attempt for a code, a feature plotted to the bulk overlay group, and
the fixed `setTimeout` pacing delay in milliseconds. -/
inductive BatchEvent where
  | resolveAttempt (zipcode : String) : BatchEvent
  | plotted (f : Feature) : BatchEvent
  | delayMs (ms : ℕ) : BatchEvent

/-- Loop state of `plotAllZipcodes`: the bulk overlay group's layers,
the success and failure counters, and the event trace so far. -/
structure BatchState where
  layers : List Feature
  success : ℕ
  failed : ℕ
  trace : List BatchEvent

/-- The `for (const zipcode of this.config.zipcodes)` loop of
`plotAllZipcodes`: each code is resolved; a non-null geometry is
plotted to the bulk overlay group and counted as a success, a null one
as a failure; after each code the loop awaits a 500 ms delay. -/
def runBatch (resolve : String → Option Feature) :
    List String → BatchState → BatchState
  | [], st => st
  | zc :: rest, st =>
      match resolve zc with
      | some f =>
          runBatch resolve rest
            { layers := st.layers ++ [f]
              success := st.success + 1
              failed := st.failed
              trace := st.trace ++
                [.resolveAttempt zc, .plotted f, .delayMs 500] }
      | none =>
          runBatch resolve rest
            { layers := st.layers
              success := st.success
              failed := st.failed + 1
              trace := st.trace ++ [.resolveAttempt zc, .delayMs 500] }

/-- A fit-bounds instruction sent to the map host: the layers whose
union bounding box the viewport is fitted to, and the padding. -/
structure FitRequest where
  features : List Feature
  padding : ℕ × ℕ

/-- Observable outcome of one `plotAllZipcodes` run. -/
structure BatchOutcome where
  layers : List Feature
  success : ℕ
  failed : ℕ
  trace : List BatchEvent
  fitBounds : Option FitRequest

/-- Model of `plotAllZipcodes()`.  `initLayers` is the content of the
bulk overlay group when the run starts (the method never clears it —
the caller decides).  After the loop the method reads
`this.layerGroup.getLayers()` — the whole group, prior layers included —
and issues a fit-bounds instruction with padding `[50, 50]` exactly
when that group is non-empty. -/
def plotAllZipcodes (initLayers : List Feature) (codes : List String)
    (pdok : String → Option PdokData) (nom : String → Option (List NomDoc)) :
    BatchOutcome :=
  let st := runBatch (fun zc => fetchZipcodeGeometry zc (pdok zc) (nom zc))
    codes { layers := initLayers, success := 0, failed := 0, trace := [] }
  { layers := st.layers
    success := st.success
    failed := st.failed
    trace := st.trace
    fitBounds :=
      if st.layers.length > 0 then
        some { features := st.layers, padding := (50, 50) }
      else none }

/-- The trace restricted to the events relevant to rate limiting:
resolution attempts and delays. -/
def rateEvents (tr : List BatchEvent) : List BatchEvent :=
  tr.filter (fun e =>
    match e with
    | .plotted _ => false
    | _ => true)

/-- The codes of the resolution attempts in a trace, in order. -/
def resolvedCodes (tr : List BatchEvent) : List String :=
  tr.filterMap (fun e =>
    match e with
    | .resolveAttempt zc => some zc
    | _ => none)

end

/-- A PDOK response whose first document carries the centroid text `s`:
the shape `{response: {docs: [{centroide_ll: s}, …]}}`. -/
def pdOf (s : String) (rest : List PdokDoc) : Option PdokData :=
  some { response := some { docs := { centroide_ll := some s } :: rest } }

/-- An oracle under which every PDOK exchange throws. -/
def noPdok : String → Option PdokData := fun _ => none

/-- An oracle under which every Nominatim exchange throws. -/
def noNom : String → Option (List NomDoc) := fun _ => none

/-- An oracle under which every PDOK exchange answers with one document
whose centroid is the point text for longitude 4, latitude 52. -/
def pdokCentroid : String → Option PdokData := fun _ => pdOf "POINT(4 52)" []

noncomputable section

/-- The feature that `pdokCentroid` makes the resolver produce for the
code 1234 (used to instantiate concrete searches). -/
def featW : Feature :=
  (fetchZipcodeGeometry "1234" (pdokCentroid "1234") (noNom "1234")).getD
    { postcode := "", geometry := .external 0 }

end

/-- Helper: a successful primary exchange whose first document's
centroid text yields a regex capture with both coordinate tokens
converting to non-NaN numbers delegates to the approximator. -/
theorem fetch_delegates_of_capture_nonnan (zc : String) (nomResp : Option (List NomDoc))
    (s : String) (rest : List PdokDoc) (cap : List Char)
    (hcap : pointCapture s.toList = some cap)
    (hlat : (tokNum cap 1).isNaN = false) (hlon : (tokNum cap 0).isNaN = false) :
    fetchZipcodeGeometry zc (pdOf s rest) nomResp =
      some (createApproximatePolygon (tokNum cap 1).toReal (tokNum cap 0).toReal zc) := by
  have hcap' : pointCapture s.data = some cap := hcap
  simp [fetchZipcodeGeometry, pdOf, hcap', hlat, hlon]

/-- Helper: a captured centroid with a NaN coordinate token falls
through to the Nominatim step. -/
theorem fetch_falls_through_of_nan (zc : String) (nomResp : Option (List NomDoc))
    (s : String) (rest : List PdokDoc) (cap : List Char)
    (hcap : pointCapture s.toList = some cap)
    (hnan : (tokNum cap 0).isNaN = true ∨ (tokNum cap 1).isNaN = true) :
    fetchZipcodeGeometry zc (pdOf s rest) nomResp = fetchFromNominatim zc nomResp := by
  have hcap' : pointCapture s.data = some cap := hcap
  rcases hnan with h | h <;> simp [fetchZipcodeGeometry, pdOf, hcap', h]

/-- Helper: a centroid text in which the point pattern does not match
falls through to the Nominatim step. -/
theorem fetch_falls_through_of_no_capture (zc : String) (nomResp : Option (List NomDoc))
    (s : String) (rest : List PdokDoc)
    (hcap : pointCapture s.toList = none) :
    fetchZipcodeGeometry zc (pdOf s rest) nomResp = fetchFromNominatim zc nomResp := by
  have hcap' : pointCapture s.data = none := hcap
  simp [fetchZipcodeGeometry, pdOf, hcap']

/-- Helper: the Nominatim step returns absent or a feature carrying the
input code as its postcode property. -/
theorem nominatim_postcode (zc : String) (nr : Option (List NomDoc)) :
    fetchFromNominatim zc nr = none ∨
      ∃ f, fetchFromNominatim zc nr = some f ∧ f.postcode = zc := by
  rcases nr with _ | docs
  · exact Or.inl rfl
  · rcases docs with _ | ⟨d, ds⟩
    · exact Or.inl rfl
    · rcases hd : d.geojson with _ | g
      · exact Or.inl (by simp [fetchFromNominatim, hd])
      · exact Or.inr ⟨{ postcode := zc, geometry := .external g },
          by simp [fetchFromNominatim, hd], rfl⟩

/-- C2: for every postal code and every pair of service responses, the
resolver either returns absent or returns a feature whose postcode
property equals the input code; the embedding's feature type makes a
partial feature unrepresentable, and both construction sites stamp the
input code into the postcode property. -/
theorem resolve_postcode_matches_input (zc : String) (pdokResp : Option PdokData)
    (nomResp : Option (List NomDoc)) :
    fetchZipcodeGeometry zc pdokResp nomResp = none ∨
      ∃ f, fetchZipcodeGeometry zc pdokResp nomResp = some f ∧ f.postcode = zc := by
  rcases pdokResp with _ | data
  · exact Or.inl rfl
  · rcases data with ⟨_ | inner⟩
    · simpa [fetchZipcodeGeometry] using nominatim_postcode zc nomResp
    · rcases inner with ⟨_ | ⟨doc, ds⟩⟩
      · simpa [fetchZipcodeGeometry] using nominatim_postcode zc nomResp
      · rcases doc with ⟨_ | s⟩
        · simpa [fetchZipcodeGeometry] using nominatim_postcode zc nomResp
        · rcases hcap : pointCapture s.data with _ | cap
          · simpa [fetchZipcodeGeometry, hcap] using nominatim_postcode zc nomResp
          · by_cases hlat : (tokNum cap 1).isNaN = false
            · by_cases hlon : (tokNum cap 0).isNaN = false
              · exact Or.inr ⟨createApproximatePolygon (tokNum cap 1).toReal
                  (tokNum cap 0).toReal zc,
                  by simp [fetchZipcodeGeometry, hcap, hlat, hlon], rfl⟩
              · simpa [fetchZipcodeGeometry, hcap, hlat, hlon] using
                  nominatim_postcode zc nomResp
            · simpa [fetchZipcodeGeometry, hcap, hlat] using nominatim_postcode zc nomResp

/-- C1 counterexample: with a thrown primary exchange and a Nominatim
response that would produce a feature, the resolver returns absent:
the secondary service is not attempted after a primary-step error,
refuting the claim that the fallback still runs. -/
theorem primary_error_skips_fallback_cex :
    fetchZipcodeGeometry "1234" none (some [{ geojson := some 7 }]) = none ∧
    fetchFromNominatim "1234" (some [{ geojson := some 7 }]) =
      some { postcode := "1234", geometry := .external 7 } :=
  ⟨rfl, rfl⟩

/-- C1 amended: a thrown network or parse error at the primary step is
caught and yields absent to the caller without the secondary service
being attempted (the result is absent for every secondary response,
even one that would succeed); an error at the secondary step likewise
yields absent.  No error propagates: the resolver is a total function
into an option. -/
theorem primary_error_returns_absent_without_fallback :
    (∀ (zc : String) (nomResp : Option (List NomDoc)),
      fetchZipcodeGeometry zc none nomResp = none) ∧
    (∀ (zc : String) (g : ℕ),
      fetchFromNominatim zc (some [{ geojson := some g }]) =
        some { postcode := zc, geometry := .external g }) ∧
    (∀ zc : String, fetchFromNominatim zc none = none) :=
  ⟨fun _ _ => rfl, fun _ _ => rfl, fun _ => rfl⟩

/-- C3 amended: the parsed-centroid guard is the NaN check alone: when
either coordinate token converts to NaN the resolver falls through to
the fallback, and when both convert to non-NaN numbers — finite or not —
it delegates to the geometry approximator. -/
theorem centroid_nan_check_governs_fallthrough :
    (∀ (zc : String) (nomResp : Option (List NomDoc)) (s : String)
        (rest : List PdokDoc) (cap : List Char),
      pointCapture s.toList = some cap →
      ((tokNum cap 0).isNaN = true ∨ (tokNum cap 1).isNaN = true) →
      fetchZipcodeGeometry zc (pdOf s rest) nomResp = fetchFromNominatim zc nomResp) ∧
    (∀ (zc : String) (nomResp : Option (List NomDoc)) (s : String)
        (rest : List PdokDoc) (cap : List Char),
      pointCapture s.toList = some cap →
      (tokNum cap 0).isNaN = false → (tokNum cap 1).isNaN = false →
      fetchZipcodeGeometry zc (pdOf s rest) nomResp =
        some (createApproximatePolygon (tokNum cap 1).toReal (tokNum cap 0).toReal zc)) :=
  ⟨fun zc nr s rest cap hcap hnan => fetch_falls_through_of_nan zc nr s rest cap hcap hnan,
   fun zc nr s rest cap hcap hlon hlat =>
     fetch_delegates_of_capture_nonnan zc nr s rest cap hcap hlat hlon⟩

/-- C3 amended, witness: a centroid whose first token is not numeric
makes the resolver fall through to the fallback. -/
theorem centroid_nan_check_governs_fallthrough_witness :
    fetchZipcodeGeometry "9999" (pdOf "POINT(x 1)" []) none =
      fetchFromNominatim "9999" none :=
  centroid_nan_check_governs_fallthrough.1 "9999" none "POINT(x 1)" [] ("x 1".toList)
    (by decide) (by decide)

/-- C3 counterexample: the centroid text POINT(Infinity 5) parses to a
non-finite longitude, yet the resolver does not fall through to the
fallback (whose response here would give a different feature): the
guard is only an isNaN check, not a finiteness check. -/
theorem nonfinite_centroid_still_delegates_cex :
    pointCapture ("POINT(Infinity 5)".toList) = some ("Infinity 5".toList) ∧
    tokNum ("Infinity 5".toList) 0 = JSNum.posInfty ∧
    fetchZipcodeGeometry "1234" (pdOf "POINT(Infinity 5)" [])
        (some [{ geojson := some 3 }]) ≠
      fetchFromNominatim "1234" (some [{ geojson := some 3 }]) := by
  refine ⟨by decide, by decide, ?_⟩
  have hL := fetch_delegates_of_capture_nonnan "1234" (some [{ geojson := some 3 }])
    "POINT(Infinity 5)" [] ("Infinity 5".toList) (by decide) (by decide) (by decide)
  rw [hL]
  simp [fetchFromNominatim, createApproximatePolygon]

/-- C8: when the letter-stripped, whitespace-trimmed input is empty or
not exactly 4 characters, the search reports invalid input and starts
no network resolution. -/
theorem search_invalid_input_no_network (input : String) (cfg : List String)
    (pdok : String → Option PdokData) (nom : String → Option (List NomDoc))
    (h : trimZipcode (jsTrimStr input) = "" ∨ (trimZipcode (jsTrimStr input)).length ≠ 4) :
    (searchZipcode input cfg pdok nom).msg = SearchMsg.invalidInput ∧
    (searchZipcode input cfg pdok nom).networkCalls = [] := by
  rw [searchZipcode, if_pos h]
  exact ⟨rfl, rfl⟩

/-- C8 witness: the two-digit input 12 is rejected with no network
call. -/
theorem search_invalid_input_no_network_witness :
    (searchZipcode "12" [] noPdok noNom).msg = SearchMsg.invalidInput ∧
    (searchZipcode "12" [] noPdok noNom).networkCalls = [] :=
  search_invalid_input_no_network "12" [] noPdok noNom (by decide)

/-- C9: stripping removes only letters, so the input 12.4 — containing
a non-letter, non-digit character — keeps length 4, passes validation,
and the controller proceeds to network resolution with the non-digit
string 12.4. -/
theorem search_nonletter_nondigit_passes_validation :
    trimZipcode (jsTrimStr "12.4") = "12.4" ∧
    (trimZipcode (jsTrimStr "12.4")).length = 4 ∧
    (searchZipcode "12.4" [] noPdok noNom).networkCalls = ["12.4", "12.4"] ∧
    ("12.4".toList.all isDigitChar) = false := by
  refine ⟨by decide, by decide, by decide, by decide⟩

/-- C7: a valid 4-character code that resolves to a feature is rendered
red with the polluted popup and reported polluted when it appears in
the configured list, and rendered green with the safe popup and
reported safe when it does not. -/
theorem search_membership_styling (input : String) (cfg : List String)
    (pdok : String → Option PdokData) (nom : String → Option (List NomDoc)) (f : Feature)
    (h4 : (trimZipcode (jsTrimStr input)).length = 4)
    (hres : fetchZipcodeGeometry (trimZipcode (jsTrimStr input))
        (pdok (trimZipcode (jsTrimStr input))) (nom (trimZipcode (jsTrimStr input))) = some f) :
    (trimZipcode (jsTrimStr input) ∈ cfg →
      (searchZipcode input cfg pdok nom).msg = SearchMsg.polluted ∧
      (searchZipcode input cfg pdok nom).searchLayers =
        [{ feature := f, fillColor := "#e74c3c", fillOpacity := 7 / 10,
           strokeColor := "#e74c3c", weight := 3,
           popup := "Postcode: " ++ trimZipcode (jsTrimStr input) ++
             "<br/><strong>" ++ "POLLUTED WATER!" ++ "</strong>" }]) ∧
    (trimZipcode (jsTrimStr input) ∉ cfg →
      (searchZipcode input cfg pdok nom).msg = SearchMsg.safe ∧
      (searchZipcode input cfg pdok nom).searchLayers =
        [{ feature := f, fillColor := "#27ae60", fillOpacity := 7 / 10,
           strokeColor := "#27ae60", weight := 3,
           popup := "Postcode: " ++ trimZipcode (jsTrimStr input) ++
             "<br/><strong>" ++ "Safe to drink" ++ "</strong>" }]) := by
  have hne : ¬(trimZipcode (jsTrimStr input) = "" ∨
      (trimZipcode (jsTrimStr input)).length ≠ 4) := by
    push_neg
    refine ⟨?_, h4⟩
    intro h0
    rw [h0] at h4
    simp at h4
  constructor
  · intro hm
    have hc : cfg.contains (trimZipcode (jsTrimStr input)) = true :=
      List.elem_iff.mpr hm
    rw [searchZipcode, if_neg hne, if_pos hc]
    refine ⟨rfl, ?_⟩
    simp [plotZipcodeWithStyle, hres]
  · intro hm
    have hc : ¬cfg.contains (trimZipcode (jsTrimStr input)) = true :=
      fun h => hm (List.elem_iff.mp h)
    rw [searchZipcode, if_neg hne, if_neg hc]
    refine ⟨rfl, ?_⟩
    simp [plotZipcodeWithStyle, hres]

/-- C7 witness: the input 1234AB strips to 1234, resolves through the
centroid oracle, is found in the configured list and is reported
polluted. -/
theorem search_membership_styling_witness :
    (searchZipcode "1234AB" ["1234"] pdokCentroid noNom).msg = SearchMsg.polluted :=
  ((search_membership_styling "1234AB" ["1234"] pdokCentroid noNom featW
    (by decide) rfl).1 (by decide)).1

/-- Helper: the batch loop's trace, restricted to resolution attempts
and delays, appends one attempt-then-delay block per code. -/
theorem runBatch_rateEvents (resolve : String → Option Feature) (codes : List String)
    (st : BatchState) :
    rateEvents (runBatch resolve codes st).trace =
      rateEvents st.trace ++
        codes.flatMap (fun zc => [BatchEvent.resolveAttempt zc, BatchEvent.delayMs 500]) := by
  induction codes generalizing st with
  | nil => simp [runBatch]
  | cons zc rest ih =>
    cases h : resolve zc with
    | some f =>
        simp only [runBatch, h]
        rw [ih]
        simp [rateEvents, List.filter_append]
    | none =>
        simp only [runBatch, h]
        rw [ih]
        simp [rateEvents, List.filter_append]

/-- Helper: the batch loop resolves exactly the given codes, in the
given order. -/
theorem runBatch_resolvedCodes (resolve : String → Option Feature) (codes : List String)
    (st : BatchState) :
    resolvedCodes (runBatch resolve codes st).trace =
      resolvedCodes st.trace ++ codes := by
  induction codes generalizing st with
  | nil => simp [runBatch]
  | cons zc rest ih =>
    cases h : resolve zc with
    | some f =>
        simp only [runBatch, h]
        rw [ih]
        simp [resolvedCodes, List.filterMap_append]
    | none =>
        simp only [runBatch, h]
        rw [ih]
        simp [resolvedCodes, List.filterMap_append]

/-- Helper: the batch loop adds exactly one overlay layer per counted
success. -/
theorem runBatch_layers_success (resolve : String → Option Feature) (codes : List String)
    (st : BatchState) :
    (runBatch resolve codes st).layers.length + st.success =
      st.layers.length + (runBatch resolve codes st).success := by
  induction codes generalizing st with
  | nil => simp [runBatch]
  | cons zc rest ih =>
    cases h : resolve zc with
    | some f =>
        simp only [runBatch, h]
        have h2 := ih ⟨st.layers ++ [f], st.success + 1, st.failed,
          st.trace ++ [BatchEvent.resolveAttempt zc, BatchEvent.plotted f,
            BatchEvent.delayMs 500]⟩
        simp only [List.length_append, List.length_cons, List.length_nil] at h2
        omega
    | none =>
        simp only [runBatch, h]
        exact ih _

/-- C6: a batch run resolves the configured codes strictly in their
given order, and its trace restricted to resolution attempts and
pacing delays is exactly one resolution followed by one 500 ms delay
per code — so consecutive resolution attempts are separated by a
500 ms pause. -/
theorem batch_sequential_with_delay (initLayers : List Feature) (codes : List String)
    (pdok : String → Option PdokData) (nom : String → Option (List NomDoc)) :
    rateEvents (plotAllZipcodes initLayers codes pdok nom).trace =
      codes.flatMap (fun zc => [BatchEvent.resolveAttempt zc, BatchEvent.delayMs 500]) ∧
    resolvedCodes (plotAllZipcodes initLayers codes pdok nom).trace = codes := by
  constructor
  · have h := runBatch_rateEvents (fun zc => fetchZipcodeGeometry zc (pdok zc) (nom zc))
      codes { layers := initLayers, success := 0, failed := 0, trace := [] }
    simpa [plotAllZipcodes, rateEvents] using h
  · have h := runBatch_resolvedCodes (fun zc => fetchZipcodeGeometry zc (pdok zc) (nom zc))
      codes { layers := initLayers, success := 0, failed := 0, trace := [] }
    simpa [plotAllZipcodes, resolvedCodes] using h

/-- C4 counterexample: a run that plots zero features (its only code
fails both services) but starts with a non-empty bulk overlay group
still issues a fit-bounds instruction, because the code tests the
whole group's layer count, not the number plotted in this run. -/
theorem batch_fitBounds_zero_plotted_cex :
    (plotAllZipcodes [{ postcode := "0000", geometry := .external 0 }] ["9999"]
      noPdok noNom).success = 0 ∧
    (plotAllZipcodes [{ postcode := "0000", geometry := .external 0 }] ["9999"]
      noPdok noNom).fitBounds =
      some { features := [{ postcode := "0000", geometry := .external 0 }],
             padding := (50, 50) } :=
  ⟨rfl, rfl⟩

/-- C4 amended: when the bulk overlay group is empty at the start of
the run, a run that plots zero features leaves the viewport unchanged
and a run that plots at least one fits the viewport, with padding
(50, 50), to the group's layers, which are then exactly the features
plotted in this run (one per success).  With a non-empty starting
group the decision and the box instead depend on the whole group. -/
theorem batch_fitBounds_from_empty_overlay (codes : List String)
    (pdok : String → Option PdokData) (nom : String → Option (List NomDoc)) :
    ((plotAllZipcodes [] codes pdok nom).success = 0 →
      (plotAllZipcodes [] codes pdok nom).fitBounds = none) ∧
    (0 < (plotAllZipcodes [] codes pdok nom).success →
      (plotAllZipcodes [] codes pdok nom).fitBounds =
        some { features := (plotAllZipcodes [] codes pdok nom).layers,
               padding := (50, 50) }) ∧
    (plotAllZipcodes [] codes pdok nom).layers.length =
      (plotAllZipcodes [] codes pdok nom).success := by
  have hls := runBatch_layers_success
    (fun zc => fetchZipcodeGeometry zc (pdok zc) (nom zc)) codes
    { layers := [], success := 0, failed := 0, trace := [] }
  simp only [List.length_nil, Nat.add_zero, Nat.zero_add] at hls
  refine ⟨?_, ?_, ?_⟩
  · intro h0
    simp only [plotAllZipcodes] at h0 ⊢
    rw [if_neg]
    rw [hls, h0]
    simp
  · intro hpos
    simp only [plotAllZipcodes] at hpos ⊢
    rw [if_pos]
    rw [hls]
    exact hpos
  · simpa [plotAllZipcodes] using hls

/-- C4 amended, witness: a run from an empty overlay whose only code
fails both services issues no fit-bounds instruction. -/
theorem batch_fitBounds_from_empty_overlay_witness :
    (plotAllZipcodes [] ["9999"] noPdok noNom).fitBounds = none :=
  (batch_fitBounds_from_empty_overlay ["9999"] noPdok noNom).1 rfl

/-- Helper: two loop indices below 20 with equal cosine and sine of
their loop angles are equal. -/
theorem approxAngle_inj {i j : ℕ} (hi : i < 20) (hj : j < 20)
    (hcos : Real.cos (approxAngle i) = Real.cos (approxAngle j))
    (hsin : Real.sin (approxAngle i) = Real.sin (approxAngle j)) : i = j := by
  have h := Real.Angle.cos_sin_inj hcos hsin
  rw [Real.Angle.angle_eq_iff_two_pi_dvd_sub] at h
  obtain ⟨k, hk⟩ := h
  unfold approxAngle at hk
  have hpi := Real.pi_pos
  have h20 : ((i : ℝ) - j) * Real.pi = 20 * k * Real.pi := by
    linear_combination 10 * hk
  have hij : (i : ℝ) - j = 20 * k := mul_right_cancel₀ (ne_of_gt hpi) h20
  have hi' : (i : ℝ) < 20 := by exact_mod_cast hi
  have hj' : (j : ℝ) < 20 := by exact_mod_cast hj
  have hi0 : (0 : ℝ) ≤ i := Nat.cast_nonneg i
  have hj0 : (0 : ℝ) ≤ j := Nat.cast_nonneg j
  have hk0 : k = 0 := by
    have h1 : (k : ℝ) < 1 := by nlinarith
    have h2 : (-1 : ℝ) < k := by nlinarith
    have h1' : k < 1 := by exact_mod_cast h1
    have h2' : -1 < k := by exact_mod_cast h2
    omega
  rw [hk0] at hij
  push_cast at hij
  have : (i : ℝ) = j := by linarith
  exact_mod_cast this

/-- C5: for every centre, the approximator's coordinate array is a ring
of exactly 21 pairs whose entry i, for i below 20, is the vertex with
latitude offset 0.02·cos(2πi/20) and longitude offset
0.02·sin(2πi/20)/cos(centre latitude in radians), whose entry 20
repeats vertex 0 (so first and last pairs are identical), and which the
feature carries re-expressed in longitude-latitude order; whenever the
longitude divisor is non-zero — every latitude away from the poles —
the 20 generated vertices are pairwise distinct. -/
theorem approx_ring_structure (lat lon : ℝ) (zipcode : String) :
    (approxRing lat lon).length = 21 ∧
    (∀ i : ℕ, i < 20 → (approxRing lat lon).get? i = some (approxVertex lat lon i)) ∧
    (approxRing lat lon).get? 20 = some (approxVertex lat lon 0) ∧
    (approxRing lat lon).get? 0 = (approxRing lat lon).get? 20 ∧
    (createApproximatePolygon lat lon zipcode).geometry =
      Geom.polygon ((approxRing lat lon).map Prod.swap) ∧
    (Real.cos (latRad lat) ≠ 0 →
      ∀ i j : ℕ, i < 20 → j < 20 →
        approxVertex lat lon i = approxVertex lat lon j → i = j) := by
  have hget : ∀ i : ℕ, i < 20 →
      (approxRing lat lon).get? i = some (approxVertex lat lon i) := by
    intro i hi
    unfold approxRing
    rw [List.get?_append (by simpa using hi), List.get?_map, List.get?_range hi]
    rfl
  refine ⟨by simp [approxRing], hget, ?_, ?_, rfl, ?_⟩
  · unfold approxRing
    rw [List.get?_append_right (by simpa using Nat.le_refl 20)]
    simp
  · rw [hget 0 (by norm_num)]
    unfold approxRing
    rw [List.get?_append_right (by simpa using Nat.le_refl 20)]
    simp
  · intro hC i j hi hj hv
    have h1 : Real.cos (approxAngle i) = Real.cos (approxAngle j) := by
      have hfst := congrArg Prod.fst hv
      simp only [approxVertex] at hfst
      nlinarith [hfst]
    have h2 : Real.sin (approxAngle i) = Real.sin (approxAngle j) := by
      have hsnd := congrArg Prod.snd hv
      simp only [approxVertex] at hsnd
      have h' : 0.02 * Real.sin (approxAngle i) / Real.cos (latRad lat) =
          0.02 * Real.sin (approxAngle j) / Real.cos (latRad lat) := by linarith
      field_simp at h'
      rcases h' with h' | h0
      · exact h'
      · norm_num at h0
    exact approxAngle_inj hi hj h1 h2

/-- C5 witness: at the equatorial centre the ring has 21 entries and
its first and last entries agree. -/
theorem approx_ring_structure_witness :
    (approxRing 0 0).length = 21 ∧ (approxRing 0 0).get? 0 = (approxRing 0 0).get? 20 :=
  ⟨(approx_ring_structure 0 0 "1234").1, (approx_ring_structure 0 0 "1234").2.2.2.1⟩

/-- C10: the longitude-offset divisor cos(lat·π/180) is computed with
no guard; it is non-zero for every latitude strictly between -90 and
90 degrees, so every emitted vertex is well defined there, and it is
exactly zero at the poles ±90 in exact arithmetic. -/
theorem lonScale_divisor_zero_only_at_poles :
    (∀ lat : ℝ, -90 < lat → lat < 90 → Real.cos (latRad lat) ≠ 0) ∧
    Real.cos (latRad 90) = 0 ∧ Real.cos (latRad (-90)) = 0 := by
  refine ⟨?_, ?_, ?_⟩
  · intro lat h1 h2
    have hpi := Real.pi_pos
    have hpos : 0 < Real.cos (latRad lat) := by
      apply Real.cos_pos_of_mem_Ioo
      constructor
      · unfold latRad
        nlinarith
      · unfold latRad
        nlinarith
    linarith
  · have h : latRad 90 = Real.pi / 2 := by unfold latRad; ring
    rw [h, Real.cos_pi_div_two]
  · have h : latRad (-90) = -(Real.pi / 2) := by unfold latRad; ring
    rw [h, Real.cos_neg, Real.cos_pi_div_two]

/-- C10 witness: at the equator the divisor is non-zero. -/
theorem lonScale_divisor_zero_only_at_poles_witness :
    Real.cos (latRad 0) ≠ 0 :=
  lonScale_divisor_zero_only_at_poles.1 0 (by norm_num) (by norm_num)
